import Mathlib

/-!
# Verification of the Boulder web-front-end (wfe) request layer

Shallow embedding of `wfe/web-front-end.go`: the envelope verifier
(`verifyPOST`), the error classifier (`statusCodeFromError` / `sendError`),
and the resource handlers needed by the claims (registration update,
authorization read, challenge read/update, new-authorization, revocation).

Collaborators living outside this file's source (the storage and registration
authority services, `core.GoodKey`, `checkAlgorithm`, x509 parsing, the nonce
registry) are modelled as opaque function fields of an `Env` record; the
control flow, branch conditions and branch ordering are translated directly
from the Go source.  Every call to a backend collaborator is recorded in an
event trace so that ordering and "no backend call" properties are statable.
-/

namespace Wfe

/-- A JOSE JSON web key, identified by the digest of its key material.
`core.KeyDigestEquals` compares keys by digest, so the digest is the
identity that matters to this layer. -/
structure JsonWebKey where
  digest : Nat
deriving DecidableEq

/-- `core.Registration` (the fields used by the wfe layer; `InitialIP` and
the other fields never read by this code are omitted). -/
structure Registration where
  id : Int
  key : JsonWebKey
  agreement : String
  contact : List String
deriving DecidableEq

/-- The Go zero value `core.Registration{ID: 0}` used by `verifyPOST` as the
sentinel "no account" registration. -/
def Registration.empty : Registration :=
  { id := 0, key := ⟨0⟩, agreement := "", contact := [] }

/-- `core.Challenge` (fields used by the wfe layer). `accountKey = none`
models a nil `AccountKey` pointer. -/
structure Challenge where
  id : Int
  typ : String
  status : String
  uri : String
  accountKey : Option JsonWebKey
deriving DecidableEq

/-- `core.Authorization` (fields used by the wfe layer). `expires = none`
models a nil `Expires` pointer; times are modelled as integers. -/
structure Authorization where
  id : String
  registrationID : Int
  identifier : String
  status : String
  expires : Option Int
  challenges : List Challenge
deriving DecidableEq

/-- `core.Certificate` as returned by `SA.GetCertificate` (fields used by
the revocation handler). -/
structure Certificate where
  der : List Nat
  registrationID : Int
deriving DecidableEq

/-- The result of `x509.ParseCertificate`: the fields of the parsed
certificate the revocation handler reads (serial, already rendered via
`core.SerialToString`, and the digest of the embedded public key). -/
structure ParsedCert where
  serial : String
  publicKeyDigest : Nat
deriving DecidableEq

/-- The Go error types of `boulder/core` inspected by `statusCodeFromError`
and by the handlers' `err.(core.NoSuchRegistrationError)` type tests.
(`core.SyntaxError` is omitted: no code path in this file raises it.)
`goodKeyPolicy` stands for the error returned by `core.GoodKey`, whose
dynamic type is none of the listed ones, so it classifies via the default
case. -/
inductive CoreError
  | malformedRequest (m : String)
  | notSupported (m : String)
  | unauthorized (m : String)
  | notFound (m : String)
  | lengthRequired (m : String)
  | signatureValidation (m : String)
  | internalServer (m : String)
  | rateLimited (m : String)
  | badNonce (m : String)
  | noSuchRegistration (m : String)
  | goodKeyPolicy (m : String)
deriving DecidableEq

/-- The ACME problem-document types assigned by `sendError`. -/
inductive ProblemType
  | unauthorizedP
  | malformedP
  | rateLimitedP
  | badNonceP
  | serverInternalP
deriving DecidableEq

/-- What a handler serializes into the response body. -/
inductive ResponseBody
  | empty
  | problemBody
  | regBody (r : Registration)
  | authzBody (a : Authorization)
  | challengeBody (c : Challenge)
deriving DecidableEq

/-- One signature of a parsed JWS: its protected header carries the
submitted key (nil-able) and the anti-replay nonce. -/
structure JwsSignature where
  jwk : Option JsonWebKey
  nonce : String
deriving DecidableEq

/-- The JWS payload, as the wfe reads it: whether `json.Unmarshal` into the
`resource` probe struct succeeds, the `resource` field value (`""` when the
field is absent, matching the Go zero value), and the results of the
handler-specific unmarshals of the same payload bytes (`none` = that
unmarshal fails). -/
structure Payload where
  jsonOk : Bool
  resource : String
  regUpdate : Option Registration
  authzInit : Option Authorization
  challengeUpdate : Option Challenge
  revokeDER : Option (List Nat)
deriving DecidableEq

/-- A successfully parsed JWS (`jose.ParseSigned` result): its signature
list and the payload it carries (`parsedJws.Verify` returns these payload
bytes on success). -/
structure Jws where
  signatures : List JwsSignature
  payload : Payload
deriving DecidableEq

/-- An inbound POST request as `verifyPOST` observes it:
presence of the `Content-Length` header, presence of a body, whether
`ioutil.ReadAll` succeeds, and the result of `jose.ParseSigned` on the body
(`none` = parse error). -/
structure PostRequest where
  hasContentLength : Bool
  hasBody : Bool
  readOk : Bool
  parsedJws : Option Jws
deriving DecidableEq

deriving instance DecidableEq for Except

/-- Result of `SA.GetRegistrationByKey`. -/
inductive RegLookup
  | found (reg : Registration)
  | noSuchRegistration
  | otherError (e : CoreError)
deriving DecidableEq

/-- A collaborator call or security-relevant step, recorded in order of
occurrence. -/
inductive Event
  | getRegByKey (k : JsonWebKey)
  | goodKeyCheck (k : JsonWebKey)
  | algCheck
  | sigVerifyOK (k : JsonWebKey)
  | sigVerifyFail (k : JsonWebKey)
  | nonceCheck (n : String)
  | resourceCompare (r : String)
  | getAuthorizationCall (id : String)
  | getCertificateCall (serial : String)
  | getCertificateStatusCall (serial : String)
  | updateRegistrationCall (base upd : Registration)
  | updateAuthorizationCall (a : Authorization) (idx : Nat) (c : Challenge)
  | newAuthorizationCall (a : Authorization) (rid : Int)
  | revokeCertificateWithRegCall (c : ParsedCert) (rid : Int)
deriving DecidableEq

/-- The tag of an event, forgetting its arguments. -/
inductive ETag
  | tGetRegByKey
  | tGoodKey
  | tAlg
  | tSigOK
  | tSigFail
  | tNonce
  | tResource
  | tGetAuthz
  | tGetCert
  | tGetCertStatus
  | tUpdateReg
  | tUpdateAuthz
  | tNewAuthz
  | tRevoke
deriving DecidableEq

def Event.tag : Event → ETag
  | .getRegByKey _ => .tGetRegByKey
  | .goodKeyCheck _ => .tGoodKey
  | .algCheck => .tAlg
  | .sigVerifyOK _ => .tSigOK
  | .sigVerifyFail _ => .tSigFail
  | .nonceCheck _ => .tNonce
  | .resourceCompare _ => .tResource
  | .getAuthorizationCall _ => .tGetAuthz
  | .getCertificateCall _ => .tGetCert
  | .getCertificateStatusCall _ => .tGetCertStatus
  | .updateRegistrationCall _ _ => .tUpdateReg
  | .updateAuthorizationCall _ _ _ => .tUpdateAuthz
  | .newAuthorizationCall _ _ => .tNewAuthz
  | .revokeCertificateWithRegCall _ _ => .tRevoke

/-- Events emitted by `verifyPOST` itself (as opposed to events emitted by
the handlers around it). -/
def Event.isVerifyEvent : Event → Bool
  | .getRegByKey _ => true
  | .goodKeyCheck _ => true
  | .algCheck => true
  | .sigVerifyOK _ => true
  | .sigVerifyFail _ => true
  | .nonceCheck _ => true
  | .resourceCompare _ => true
  | _ => false

/-- `true` when some event with tag `t` occurs in the trace. -/
def occursT (t : ETag) (tr : List Event) : Bool :=
  tr.any (fun e => e.tag = t)

/-- `true` when the first event with tag `t2` (if any) is strictly preceded
by an event with tag `t1`; vacuously `true` when no `t2` event occurs. -/
def beforeFirst (t1 t2 : ETag) : List Event → Bool
  | [] => true
  | e :: rest =>
    if e.tag = t2 then false
    else if e.tag = t1 then true
    else beforeFirst t1 t2 rest

/-- The external collaborators and configuration of the web front end.
Fields up to `nonceValid` model code outside this repository's wfe source:
`getRegistrationByKey`, `getAuthorization`, `getCertificate`,
`getCertificateStatus` model the Storage collaborator; `goodKey` models
`core.GoodKey`; `checkAlgorithmOk` models `checkAlgorithm` (spec step 6:
algorithm/key compatibility); `sigValid` models JWS signature verification;
`nonceValid` models `nonceService.Valid`; `parseCert` models
`x509.ParseCertificate` (a pure function of the DER bytes); the
`update…`/`new…`/`revoke…` fields model the Registration Authority. -/
structure Env where
  getRegistrationByKey : JsonWebKey → RegLookup
  goodKey : JsonWebKey → Option String
  checkAlgorithmOk : JsonWebKey → Jws → Bool
  sigValid : Jws → JsonWebKey → Bool
  nonceValid : String → Bool
  subscriberAgreementURL : String
  challengeBase : String
  now : Int
  getAuthorization : String → Option Authorization
  getCertificate : String → Option Certificate
  getCertificateStatus : String → Option String
  parseCert : List Nat → Option ParsedCert
  updateRegistration : Registration → Registration → Except CoreError Registration
  updateAuthorization : Authorization → Nat → Challenge → Except CoreError Authorization
  newAuthorization : Authorization → Int → Except CoreError Authorization
  revokeCertificateWithReg : ParsedCert → Int → Option CoreError

/-- `statusCodeFromError` (web-front-end.go:96): maps a core error value to
an HTTP status by a type switch.  `statusBadNonce` is the Go constant
`0400`, i.e. octal, i.e. 256.  `noSuchRegistration` and `goodKeyPolicy`
have no case of their own and fall to the 500 default. -/
def statusCodeFromError : CoreError → Nat
  | .malformedRequest _ => 400
  | .notSupported _ => 501
  | .unauthorized _ => 403
  | .notFound _ => 404
  | .lengthRequired _ => 411
  | .signatureValidation _ => 400
  | .internalServer _ => 500
  | .rateLimited _ => 429
  | .badNonce _ => 256
  | .noSuchRegistration _ => 500
  | .goodKeyPolicy _ => 500

/-- The classification half of `sendError` (web-front-end.go:487): from the
status code passed in, the problem type and the status code actually
written.  Only the bad-nonce sentinel (256, Go `0400`) is remapped, to 400;
411 in particular is written out as-is. -/
def sendError (code : Nat) : ProblemType × Nat :=
  if code = 412 ∨ code = 403 then (.unauthorizedP, code)
  else if code = 409 ∨ code = 405 ∨ code = 404 ∨ code = 400 ∨ code = 411 then
    (.malformedP, code)
  else if code = 429 then (.rateLimitedP, code)
  else if code = 256 then (.badNonceP, 400)
  else (.serverInternalP, code)

/-- What a handler produced: the trace of collaborator calls, the HTTP
status written, the problem type (for error responses) and the serialized
body. -/
structure HandlerResult where
  trace : List Event
  status : Nat
  problem : Option ProblemType
  body : ResponseBody
deriving DecidableEq

/-- A handler outcome that can also be a Go runtime panic (used for the
handlers that dereference the possibly-nil `authz.Expires`). -/
inductive Outcome
  | done (r : HandlerResult)
  | panicked (tr : List Event)
deriving DecidableEq

/-- Build the error response a handler produces via `wfe.sendError`. -/
def mkError (tr : List Event) (code : Nat) : HandlerResult :=
  { trace := tr
    status := (sendError code).2
    problem := some (sendError code).1
    body := .problemBody }

/-- HTTP method of a challenge request (the mux admits GET, HEAD, POST). -/
inductive Method
  | GET
  | HEAD
  | POST
deriving DecidableEq

/-- Digits-only decimal parse; `none` on empty or non-digit input
(the core of `strconv.ParseInt(s, 10, 64)` after sign handling). -/
def decDigits (cs : List Char) : Option Nat :=
  if cs = [] then none
  else
    cs.foldl
      (fun acc c =>
        match acc with
        | none => none
        | some n => if c.isDigit then some (n * 10 + (c.toNat - 48)) else none)
      (some 0)

def int64Max : Nat := 9223372036854775807

/-- `strconv.ParseInt(s, 10, 64)`: optional single leading `+`/`-`, at
least one digit, all decimal digits, result within the signed 64-bit
range.  Overflow is an error (`ErrRange`), which every caller in this file
treats the same as a syntax error, so it is `none` here. -/
def parseInt64 (s : String) : Option Int :=
  match s.data with
  | [] => none
  | c :: rest =>
    if c = '-' then
      match decDigits rest with
      | none => none
      | some n => if n ≤ int64Max + 1 then some (-(n : Int)) else none
    else if c = '+' then
      match decDigits rest with
      | none => none
      | some n => if n ≤ int64Max then some (n : Int) else none
    else
      match decDigits (c :: rest) with
      | none => none
      | some n => if n ≤ int64Max then some (n : Int) else none

/-- `strings.Split(s, "/")` on the character list: Go's split semantics
for the single-character separator used by this file (structural recursion
so that concrete proofs can evaluate it). -/
def splitCharsOn (c : Char) : List Char → List (List Char)
  | [] => [[]]
  | x :: rest =>
    let r := splitCharsOn c rest
    if x = c then [] :: r
    else
      match r with
      | [] => [[x]]
      | h :: t => (x :: h) :: t

/-- `strings.Split(s, "/")`. -/
def splitOnSlash (s : String) : List String :=
  (splitCharsOn (Char.ofNat 47) s.data).map (fun cs => String.mk cs)

/-- `parseIDFromPath` (web-front-end.go:313): the regexp `^.*/` greedily
deletes everything up to and including the last slash, leaving the last
slash-separated token (the whole path when it has no slash). -/
def parseIDFromPath (path : String) : String :=
  (splitOnSlash path).getLastD path

/-- Modelled from the spec: `core.KeyDigestEquals` — the requester's
verification key digest equals the digest of the certificate's embedded
public key. -/
def keyDigestEquals (k : JsonWebKey) (pkDigest : Nat) : Bool :=
  k.digest = pkDigest

/-- Modelled from the spec: `core.Authorization.FindChallenge` — linear
scan of the authorization's challenge list for the challenge with the
given ID, returning its index, or the sentinel `-1` when absent
(spec §4.5, Challenge read precondition). -/
def findChallenge (a : Authorization) (cid : Int) : Int :=
  match a.challenges.findIdx? (fun c => c.id == cid) with
  | some i => (i : Int)
  | none => -1

/-- `prepChallengeForDisplay` (web-front-end.go:925): fill in the derived
URI (`Sprintf("%s%s/%d", wfe.ChallengeBase, authz.ID, challenge.ID)`), then
clear the internal `AccountKey` and `ID` fields. -/
def prepChallengeForDisplay (env : Env) (authz : Authorization) (challenge : Challenge) :
    Challenge :=
  { challenge with
      uri := env.challengeBase ++ authz.id ++ "/" ++ toString challenge.id
      accountKey := none
      id := 0 }

/-- `prepAuthorizationForDisplay` (web-front-end.go:935): prepare every
nested challenge (while `authz.ID` is still intact, since the loop runs
before the clearing), then clear the authorization's `ID` and
`RegistrationID`. -/
def prepAuthorizationForDisplay (env : Env) (authz : Authorization) : Authorization :=
  { authz with
      challenges := authz.challenges.map (fun c => prepChallengeForDisplay env authz c)
      id := ""
      registrationID := 0 }

/-- The ACME resource names (`core.AcmeResource` constants) used by the
handlers in this file. -/
def resourceNewAuthz : String := "new-authz"

def resourceRegistration : String := "reg"

def resourceChallenge : String := "challenge"

def resourceRevokeCert : String := "revoke-cert"

/-- The tail of `verifyPOST` once the verification key `key` and the
registration `reg` have been resolved (web-front-end.go:429-483):
algorithm check, signature verification, nonce check, payload JSON parse,
resource binding.  `tr` is the trace accumulated so far. -/
def verifyPOSTtail (env : Env) (jws : Jws) (sig : JwsSignature) (key : JsonWebKey)
    (reg : Registration) (tr : List Event) (res : String) :
    List Event × Except CoreError (Payload × JsonWebKey × Registration) :=
  let tr1 := tr ++ [Event.algCheck]
  if env.checkAlgorithmOk key jws = false then
    (tr1, .error (.signatureValidation "algorithm incompatible with key type"))
  else if env.sigValid jws key = false then
    (tr1 ++ [Event.sigVerifyFail key], .error (.signatureValidation "JWS verification error"))
  else
    let tr2 := tr1 ++ [Event.sigVerifyOK key, Event.nonceCheck sig.nonce]
    -- Go guard is `err != nil || len(nonce) == 0`; `err` is necessarily nil here.
    if sig.nonce.length = 0 then
      (tr2, .error (.badNonce "JWS has no anti-replay nonce"))
    else if env.nonceValid sig.nonce = false then
      (tr2, .error (.badNonce "JWS has invalid anti-replay nonce"))
    else if jws.payload.jsonOk = false then
      (tr2, .error (.signatureValidation "Request payload did not parse as JSON"))
    else if jws.payload.resource = "" then
      (tr2, .error (.malformedRequest "Request payload does not specify a resource"))
    else
      let tr3 := tr2 ++ [Event.resourceCompare jws.payload.resource]
      if jws.payload.resource ≠ res then
        (tr3, .error (.malformedRequest "JWS resource payload does not match the HTTP resource"))
      else
        (tr3, .ok (jws.payload, key, reg))

/-- `verifyPOST` (web-front-end.go:335): Content-Length check, body read,
JWS parse, signature-count check, submitted-key extraction, account lookup
and key resolution, then `verifyPOSTtail`.  Returns the trace of
collaborator calls alongside the result. -/
def verifyPOST (env : Env) (req : PostRequest) (regCheck : Bool) (res : String) :
    List Event × Except CoreError (Payload × JsonWebKey × Registration) :=
  if req.hasContentLength = false then
    ([], .error (.lengthRequired "Content-Length header is required for POST."))
  else if req.hasBody = false then
    ([], .error (.malformedRequest "No body on POST"))
  else if req.readOk = false then
    ([], .error (.internalServer "unable to read request body"))
  else
    match req.parsedJws with
    | none => ([], .error (.signatureValidation "Parse error reading JWS"))
    | some jws =>
      if jws.signatures.length > 1 then
        ([], .error (.signatureValidation "Too many signatures in POST body"))
      else
        match jws.signatures with
        | [] => ([], .error (.signatureValidation "POST JWS not signed"))
        | sig :: _ =>
          match sig.jwk with
          | none => ([], .error (.signatureValidation "No JWK in JWS header"))
          | some submittedKey =>
            let tr0 := [Event.getRegByKey submittedKey]
            match env.getRegistrationByKey submittedKey with
            | .noSuchRegistration =>
              if regCheck then
                (tr0, .error (.noSuchRegistration "no registration for key"))
              else
                let tr1 := tr0 ++ [Event.goodKeyCheck submittedKey]
                match env.goodKey submittedKey with
                | some e => (tr1, .error (.goodKeyPolicy e))
                | none => verifyPOSTtail env jws sig submittedKey Registration.empty tr1 res
            | .otherError e => (tr0, .error e)
            | .found reg => verifyPOSTtail env jws sig reg.key reg tr0 res

/-- `Registration` handler (web-front-end.go:1048): account update. -/
def registrationHandler (env : Env) (req : PostRequest) (path : String) : HandlerResult :=
  let vres := verifyPOST env req true resourceRegistration
  match vres.2 with
  | .error e =>
    let code :=
      match e with
      | .noSuchRegistration _ => 403
      | _ => statusCodeFromError e
    mkError vres.1 code
  | .ok (payload, _, currReg) =>
    match parseInt64 (parseIDFromPath path) with
    | none => mkError vres.1 400
    | some id =>
      if id ≤ 0 then mkError vres.1 400
      else if id ≠ currReg.id then mkError vres.1 403
      else
        match payload.regUpdate with
        | none => mkError vres.1 400
        | some update =>
          if update.agreement ≠ "" ∧ update.agreement ≠ env.subscriberAgreementURL then
            mkError vres.1 400
          else
            -- web-front-end.go:1100: `update.Key = currReg.Key`
            let update2 := { update with key := currReg.key }
            let tr := vres.1 ++ [Event.updateRegistrationCall currReg update2]
            match env.updateRegistration currReg update2 with
            | .error e => mkError tr (statusCodeFromError e)
            | .ok updatedReg =>
              { trace := tr, status := 202, problem := none, body := .regBody updatedReg }

/-- `getChallenge` (web-front-end.go:943): GET/HEAD response for one
challenge. -/
def getChallenge (env : Env) (authz : Authorization) (challenge : Challenge)
    (tr : List Event) : HandlerResult :=
  { trace := tr
    status := 202
    problem := none
    body := .challengeBody (prepChallengeForDisplay env authz challenge) }

/-- `postChallenge` (web-front-end.go:973): challenge update.  Note the
error path hardcodes `respCode := http.StatusBadRequest` instead of calling
`statusCodeFromError`.  The read of
`updatedAuthorization.Challenges[challengeIndex]` panics if the RA returns
a shorter challenge list. -/
def postChallenge (env : Env) (req : PostRequest) (authz : Authorization)
    (challengeIndex : Nat) (tr0 : List Event) : Outcome :=
  let vres := verifyPOST env req true resourceChallenge
  let tr := tr0 ++ vres.1
  match vres.2 with
  | .error e =>
    let code :=
      match e with
      | .noSuchRegistration _ => 403
      | _ => 400
    .done (mkError tr code)
  | .ok (payload, _, currReg) =>
    if currReg.agreement = "" then .done (mkError tr 403)
    else if currReg.id ≠ authz.registrationID then .done (mkError tr 403)
    else
      match payload.challengeUpdate with
      | none => .done (mkError tr 400)
      | some challengeUpdate =>
        let tr2 := tr ++ [Event.updateAuthorizationCall authz challengeIndex challengeUpdate]
        match env.updateAuthorization authz challengeIndex challengeUpdate with
        | .error e => .done (mkError tr2 (statusCodeFromError e))
        | .ok updated =>
          match updated.challenges.get? challengeIndex with
          | none => .panicked tr2
          | some challenge =>
            .done
              { trace := tr2
                status := 202
                problem := none
                body := .challengeBody (prepChallengeForDisplay env authz challenge) }

/-- `Challenge` handler (web-front-end.go:858).  `suffix` is
`request.URL.Path[len(ChallengePath):]`, the path after
`/acme/challenge/`.  When `authz.Expires` is nil the expiry branch
evaluates `*authz.Expires` inside `fmt.Sprintf` — a nil dereference,
modelled as `Outcome.panicked`. -/
def challengeHandler (env : Env) (method : Method) (suffix : String)
    (req : PostRequest) : Outcome :=
  let slug := splitOnSlash suffix
  if slug.length ≠ 2 then .done (mkError [] 404)
  else
    match parseInt64 (slug.getD 1 "") with
    | none => .done (mkError [] 404)
    | some challengeID =>
      let authorizationID := slug.getD 0 ""
      let tr := [Event.getAuthorizationCall authorizationID]
      match env.getAuthorization authorizationID with
      | none => .done (mkError tr 404)
      | some authz =>
        if (match authz.expires with
            | none => true
            | some t => t < env.now) = true then
          match authz.expires with
          | none => .panicked tr
          | some _ => .done (mkError tr 404)
        else
          let challengeIndex := findChallenge authz challengeID
          if challengeIndex = -1 then .done (mkError tr 404)
          else
            match authz.challenges.get? challengeIndex.toNat with
            | none => .panicked tr
            | some challenge =>
              match method with
              | .GET => .done (getChallenge env authz challenge tr)
              | .HEAD => .done (getChallenge env authz challenge tr)
              | .POST => postChallenge env req authz challengeIndex.toNat tr

/-- `Authorization` handler (web-front-end.go:1128): authorization read.
Same nil-`Expires` dereference as the challenge handler. -/
def authorizationHandler (env : Env) (path : String) : Outcome :=
  let id := parseIDFromPath path
  let tr := [Event.getAuthorizationCall id]
  match env.getAuthorization id with
  | none => .done (mkError tr 404)
  | some authz =>
    if (match authz.expires with
        | none => true
        | some t => t < env.now) = true then
      match authz.expires with
      | none => .panicked tr
      | some _ => .done (mkError tr 404)
    else
      .done
        { trace := tr
          status := 200
          problem := none
          body := .authzBody (prepAuthorizationForDisplay env authz) }

/-- `NewAuthorization` handler (web-front-end.go:622). -/
def newAuthorizationHandler (env : Env) (req : PostRequest) : HandlerResult :=
  let vres := verifyPOST env req true resourceNewAuthz
  match vres.2 with
  | .error e =>
    let code :=
      match e with
      | .noSuchRegistration _ => 403
      | _ => statusCodeFromError e
    mkError vres.1 code
  | .ok (payload, _, currReg) =>
    if currReg.agreement = "" then mkError vres.1 403
    else
      match payload.authzInit with
      | none => mkError vres.1 400
      | some init =>
        let tr := vres.1 ++ [Event.newAuthorizationCall init currReg.id]
        match env.newAuthorization init currReg.id with
        | .error e => mkError tr (statusCodeFromError e)
        | .ok authz =>
          { trace := tr
            status := 201
            problem := none
            body := .authzBody (prepAuthorizationForDisplay env authz) }

/-- `RevokeCertificate` handler (web-front-end.go:681). -/
def revokeCertificate (env : Env) (req : PostRequest) : HandlerResult :=
  let vres := verifyPOST env req false resourceRevokeCert
  match vres.2 with
  | .error e => mkError vres.1 (statusCodeFromError e)
  | .ok (payload, requestKey, registration) =>
    match payload.revokeDER with
    | none => mkError vres.1 400
    | some der =>
      match env.parseCert der with
      | none => mkError vres.1 400
      | some providedCert =>
        let serial := providedCert.serial
        let tr := vres.1 ++ [Event.getCertificateCall serial]
        match env.getCertificate serial with
        | none => mkError tr 404
        | some cert =>
          if cert.der ≠ der then mkError tr 404
          else
            match env.parseCert cert.der with
            | none => mkError tr 500
            | some parsedCertificate =>
              let tr2 := tr ++ [Event.getCertificateStatusCall serial]
              match env.getCertificateStatus serial with
              | none => mkError tr2 404
              | some st =>
                if st = "revoked" then mkError tr2 409
                else if ¬(keyDigestEquals requestKey parsedCertificate.publicKeyDigest = true ∨
                    registration.id = cert.registrationID) then
                  mkError tr2 403
                else
                  let tr3 := tr2 ++
                    [Event.revokeCertificateWithRegCall parsedCertificate registration.id]
                  match env.revokeCertificateWithReg parsedCertificate registration.id with
                  | some e => mkError tr3 (statusCodeFromError e)
                  | none => { trace := tr3, status := 200, problem := none, body := .empty }

/-! ## Concrete fixtures (used by witness theorems) -/

/-- A submitted key. -/
def kA : JsonWebKey := ⟨5⟩

/-- The key stored with the looked-up registration (distinct from `kA` so
that "verified with the stored key" is observable). -/
def kStored : JsonWebKey := ⟨9⟩

/-- A stored registration owned by account 1. -/
def regA : Registration :=
  { id := 1, key := kStored, agreement := "http://terms", contact := [] }

/-- A payload with no handler-specific content. -/
def basePayload : Payload :=
  { jsonOk := true, resource := "", regUpdate := none, authzInit := none,
    challengeUpdate := none, revokeDER := none }

/-- A one-signature JWS submitted under `kA` carrying `p`. -/
def mkJws (p : Payload) : Jws :=
  { signatures := [{ jwk := some kA, nonce := "nonce1" }], payload := p }

/-- A well-formed POST request carrying `p`. -/
def mkReq (p : Payload) : PostRequest :=
  { hasContentLength := true, hasBody := true, readOk := true, parsedJws := some (mkJws p) }

/-- A collaborator environment where no account exists, every key is good,
every algorithm/signature/nonce check passes, and storage is empty. -/
def env0 : Env :=
  { getRegistrationByKey := fun _ => .noSuchRegistration
    goodKey := fun _ => none
    checkAlgorithmOk := fun _ _ => true
    sigValid := fun _ _ => true
    nonceValid := fun _ => true
    subscriberAgreementURL := "http://terms"
    challengeBase := "http://x/acme/challenge/"
    now := 100
    getAuthorization := fun _ => none
    getCertificate := fun _ => none
    getCertificateStatus := fun _ => none
    parseCert := fun _ => none
    updateRegistration := fun _ u => .ok u
    updateAuthorization := fun a _ _ => .ok a
    newAuthorization := fun a _ => .ok a
    revokeCertificateWithReg := fun _ _ => none }

/-- `env0`, but `kA` resolves to the stored registration `regA`. -/
def envFound : Env :=
  { env0 with getRegistrationByKey := fun k => if k = kA then .found regA else .noSuchRegistration }

/-- A POST request whose JWS carries two signatures. -/
def reqTwoSigs : PostRequest :=
  { hasContentLength := true, hasBody := true, readOk := true,
    parsedJws := some
      { signatures :=
          [{ jwk := some kA, nonce := "nonce1" }, { jwk := some kA, nonce := "nonce2" }],
        payload := basePayload } }

/-- A POST request with no Content-Length header. -/
def reqNoCL : PostRequest :=
  { hasContentLength := false, hasBody := true, readOk := true, parsedJws := none }

/-- A submitted registration update carrying a key that differs from the
stored one. -/
def updSub : Registration := { id := 0, key := ⟨77⟩, agreement := "", contact := [] }

/-- Payload of a registration-update request. -/
def regPayload : Payload := { basePayload with resource := "reg", regUpdate := some updSub }

/-- An authorization as the RA might return it, with internal fields set. -/
def authzRaw : Authorization :=
  { id := "az1", registrationID := 42, identifier := "example.com", status := "pending",
    expires := some 200,
    challenges :=
      [{ id := 3, typ := "http-01", status := "pending", uri := "", accountKey := some kA }] }

/-- Payload of a new-authorization request. -/
def naPayload : Payload := { basePayload with resource := "new-authz", authzInit := some authzRaw }

/-- `envFound` whose RA returns `authzRaw` on new-authorization. -/
def envC7 : Env := { envFound with newAuthorization := fun _ _ => .ok authzRaw }

/-- A stored authorization whose `Expires` pointer is nil. -/
def authzNilExp : Authorization :=
  { id := "a", registrationID := 1, identifier := "example.com", status := "pending",
    expires := none, challenges := [] }

/-- `env0` whose storage returns `authzNilExp` under id `"a"`. -/
def envNilExp : Env :=
  { env0 with getAuthorization := fun s => if s = "a" then some authzNilExp else none }

/-- A parsed certificate with serial `"serialA"` and embedded key digest 7
(matching neither `kA` nor `kStored`). -/
def pcA : ParsedCert := { serial := "serialA", publicKeyDigest := 7 }

/-- The stored certificate for `"serialA"`, owned by account 2. -/
def certA : Certificate := { der := [1, 2, 3], registrationID := 2 }

/-- Payload of a revocation request submitting `certA`'s exact bytes. -/
def revokePayload : Payload :=
  { basePayload with resource := "revoke-cert", revokeDER := some [1, 2, 3] }

/-- `env0` with `certA` stored (unrevoked) under serial `"serialA"`. -/
def envRevoke : Env :=
  { env0 with
      parseCert := fun der => if der = [1, 2, 3] then some pcA else none
      getCertificate := fun s => if s = "serialA" then some certA else none
      getCertificateStatus := fun s => if s = "serialA" then some "good" else none }

/-- A challenge as serialized to a client must carry no internal challenge
ID and no account-key reference. -/
def challengeCleared (c : Challenge) : Prop := c.id = 0 ∧ c.accountKey = none

/-- An authorization as serialized to a client must carry no internal ID,
no owning-account ID, and only cleared challenges. -/
def authzCleared (a : Authorization) : Prop :=
  a.id = "" ∧ a.registrationID = 0 ∧ ∀ c ∈ a.challenges, c.id = 0 ∧ c.accountKey = none

/-! ## Helper lemmas about `verifyPOSTtail` and `verifyPOST` -/

theorem verifyPOSTtail_trace_shape (env : Env) (jws : Jws) (sig : JwsSignature)
    (key : JsonWebKey) (reg : Registration) (tr : List Event) (res : String) :
    (verifyPOSTtail env jws sig key reg tr res).1 = tr ++ [Event.algCheck] ∨
    (verifyPOSTtail env jws sig key reg tr res).1 =
      tr ++ [Event.algCheck, Event.sigVerifyFail key] ∨
    (verifyPOSTtail env jws sig key reg tr res).1 =
      tr ++ [Event.algCheck, Event.sigVerifyOK key, Event.nonceCheck sig.nonce] ∨
    (verifyPOSTtail env jws sig key reg tr res).1 =
      tr ++ [Event.algCheck, Event.sigVerifyOK key, Event.nonceCheck sig.nonce,
        Event.resourceCompare jws.payload.resource] := by
  unfold verifyPOSTtail
  repeat' split
  all_goals simp

theorem verifyPOSTtail_ok (env : Env) (jws : Jws) (sig : JwsSignature) (key : JsonWebKey)
    (reg : Registration) (tr : List Event) (res : String) (p : Payload) (kk : JsonWebKey)
    (r : Registration)
    (h : (verifyPOSTtail env jws sig key reg tr res).2 = .ok (p, kk, r)) :
    p = jws.payload ∧ kk = key ∧ r = reg := by
  unfold verifyPOSTtail at h
  repeat' split at h
  all_goals simp_all

theorem verifyPOSTtail_sigOK_conds (env : Env) (jws : Jws) (sig : JwsSignature)
    (key : JsonWebKey) (reg : Registration) (tr : List Event) (res : String) (kk : JsonWebKey)
    (htr : Event.sigVerifyOK kk ∉ tr)
    (h : Event.sigVerifyOK kk ∈ (verifyPOSTtail env jws sig key reg tr res).1) :
    kk = key ∧ env.checkAlgorithmOk key jws = true ∧ env.sigValid jws key = true := by
  unfold verifyPOSTtail at h
  repeat' split at h
  all_goals simp_all

theorem verifyPOSTtail_sigFail_key (env : Env) (jws : Jws) (sig : JwsSignature)
    (key : JsonWebKey) (reg : Registration) (tr : List Event) (res : String) (kk : JsonWebKey)
    (htr : Event.sigVerifyFail kk ∉ tr)
    (h : Event.sigVerifyFail kk ∈ (verifyPOSTtail env jws sig key reg tr res).1) :
    kk = key := by
  unfold verifyPOSTtail at h
  repeat' split at h
  all_goals simp_all

theorem beforeFirst_append_of_none (t1 t2 : ETag) (l1 l2 : List Event)
    (h : ∀ e ∈ l1, e.tag ≠ t1 ∧ e.tag ≠ t2) :
    beforeFirst t1 t2 (l1 ++ l2) = beforeFirst t1 t2 l2 := by
  induction l1 with
  | nil => rfl
  | cons e rest ih =>
    have h1 := h e (by simp)
    simp only [List.cons_append, beforeFirst, h1.1, h1.2, if_neg, ite_false]
    exact ih (fun x hx => h x (by simp [hx]))

theorem occursT_append (t : ETag) (l1 l2 : List Event) :
    occursT t (l1 ++ l2) = (occursT t l1 || occursT t l2) := by
  simp [occursT, List.any_append]

theorem occursT_false_of_none (t : ETag) (l : List Event)
    (h : ∀ e ∈ l, e.tag ≠ t) : occursT t l = false := by
  simp only [occursT, List.any_eq_false, decide_eq_true_eq]
  exact h

/-- The C3 ordering properties, established for the tail given a prefix
trace free of signature/nonce/resource events. -/
theorem verifyPOSTtail_security_order (env : Env) (jws : Jws) (sig : JwsSignature)
    (key : JsonWebKey) (reg : Registration) (tr : List Event) (res : String)
    (h : ∀ e ∈ tr, e.tag ≠ .tSigOK ∧ e.tag ≠ .tSigFail ∧ e.tag ≠ .tNonce ∧ e.tag ≠ .tResource) :
    beforeFirst .tSigOK .tNonce (verifyPOSTtail env jws sig key reg tr res).1 = true ∧
    beforeFirst .tNonce .tResource (verifyPOSTtail env jws sig key reg tr res).1 = true ∧
    (occursT .tNonce (verifyPOSTtail env jws sig key reg tr res).1 = true →
      occursT .tSigFail (verifyPOSTtail env jws sig key reg tr res).1 = false) := by
  have hb1 : ∀ l2, beforeFirst .tSigOK .tNonce (tr ++ l2) = beforeFirst .tSigOK .tNonce l2 :=
    fun l2 => beforeFirst_append_of_none _ _ _ _ (fun e he => ⟨(h e he).1, (h e he).2.2.1⟩)
  have hb2 : ∀ l2, beforeFirst .tNonce .tResource (tr ++ l2) = beforeFirst .tNonce .tResource l2 :=
    fun l2 => beforeFirst_append_of_none _ _ _ _ (fun e he => ⟨(h e he).2.2.1, (h e he).2.2.2⟩)
  have hn : occursT .tNonce tr = false :=
    occursT_false_of_none _ _ (fun e he => (h e he).2.2.1)
  have hf : occursT .tSigFail tr = false :=
    occursT_false_of_none _ _ (fun e he => (h e he).2.1)
  rcases verifyPOSTtail_trace_shape env jws sig key reg tr res with hs | hs | hs | hs <;>
    rw [hs] <;>
    refine ⟨by rw [hb1]; rfl, by rw [hb2]; rfl, ?_⟩ <;>
    rw [occursT_append, occursT_append, hn, hf] <;> simp [occursT, Event.tag]

/-- C3: in `verifyPOST`, for every request, the anti-replay nonce is
extracted and checked only after cryptographic signature verification has
succeeded, the nonce check precedes the comparison of the payload's
`resource` field with the expected resource, and no path reaches the nonce
check after a failed (or skipped) signature verification. -/
theorem verifyPOST_nonce_after_sig_before_resource (env : Env) (req : PostRequest)
    (regCheck : Bool) (res : String) :
    beforeFirst .tSigOK .tNonce (verifyPOST env req regCheck res).1 = true ∧
    beforeFirst .tNonce .tResource (verifyPOST env req regCheck res).1 = true ∧
    (occursT .tNonce (verifyPOST env req regCheck res).1 = true →
      occursT .tSigFail (verifyPOST env req regCheck res).1 = false) := by
  unfold verifyPOST
  repeat' split
  all_goals
    first
      | exact ⟨rfl, rfl, fun hcon => by simp [occursT, Event.tag] at hcon⟩
      | (apply verifyPOSTtail_security_order
         intro e he
         simp only [List.mem_append, List.mem_cons, List.not_mem_nil, or_false] at he
         rcases he with rfl | rfl <;> simp [Event.tag])

/-- C3 witness: a concrete run in which the nonce check occurs, the
signature verification success precedes it, and no failed verification
occurs. -/
theorem verifyPOST_nonce_after_sig_witness :
    occursT .tNonce (Wfe.verifyPOST env0 (mkReq basePayload) false "reg").1 = true ∧
    beforeFirst .tSigOK .tNonce (Wfe.verifyPOST env0 (mkReq basePayload) false "reg").1 = true ∧
    occursT .tSigFail (Wfe.verifyPOST env0 (mkReq basePayload) false "reg").1 = false := by
  refine ⟨by decide, (verifyPOST_nonce_after_sig_before_resource env0 (mkReq basePayload) false "reg").1,
    (verifyPOST_nonce_after_sig_before_resource env0 (mkReq basePayload) false "reg").2.2 (by decide)⟩

theorem verifyPOSTtail_no_goodKey (env : Env) (jws : Jws) (sig : JwsSignature)
    (key : JsonWebKey) (reg : Registration) (tr : List Event) (res : String) (kk : JsonWebKey)
    (htr : Event.goodKeyCheck kk ∉ tr) :
    Event.goodKeyCheck kk ∉ (verifyPOSTtail env jws sig key reg tr res).1 := by
  intro h
  rcases verifyPOSTtail_trace_shape env jws sig key reg tr res with hs | hs | hs | hs <;>
    rw [hs] at h <;> simp at h <;> exact htr h

theorem verifyPOSTtail_mem_left (env : Env) (jws : Jws) (sig : JwsSignature)
    (key : JsonWebKey) (reg : Registration) (tr : List Event) (res : String) (e : Event)
    (h : e ∈ tr) :
    e ∈ (verifyPOSTtail env jws sig key reg tr res).1 := by
  rcases verifyPOSTtail_trace_shape env jws sig key reg tr res with hs | hs | hs | hs <;>
    rw [hs] <;> exact List.mem_append_left _ h

theorem verifyPOSTtail_resource_reject (env : Env) (jws : Jws) (sig : JwsSignature)
    (key : JsonWebKey) (reg : Registration) (tr : List Event) (res : String)
    (ha : env.checkAlgorithmOk key jws = true) (hs : env.sigValid jws key = true)
    (hn1 : sig.nonce.length ≠ 0) (hn2 : env.nonceValid sig.nonce = true)
    (hj : jws.payload.jsonOk = true)
    (hr : jws.payload.resource = "" ∨ jws.payload.resource ≠ res) :
    ∃ m, (verifyPOSTtail env jws sig key reg tr res).2 = .error (.malformedRequest m) := by
  unfold verifyPOSTtail
  by_cases hemp : jws.payload.resource = ""
  · simp [ha, hs, hn1, hn2, hj, hemp]
  · rcases hr with hr | hr
    · exact absurd hr hemp
    · simp [ha, hs, hn1, hn2, hj, hemp, hr]

/-- C2: key resolution in `verifyPOST`.  When the account lookup finds a
registration, the signature is only ever verified against the stored key
(`reg.Key`), never against the submitted one, `GoodKey` is not consulted,
and on success the stored key and registration are returned.  When the
lookup finds nothing and `regCheck` is false, the submitted key must first
pass `GoodKey` — on policy failure that error is returned and no signature
verification happens — and on pass the submitted key is the verification
key, returned together with the sentinel empty registration. -/
theorem verifyPOST_key_resolution (env : Env) (req : PostRequest) (res : String)
    (jws : Jws) (sig : JwsSignature) (k : JsonWebKey)
    (h1 : req.hasContentLength = true) (h2 : req.hasBody = true) (h3 : req.readOk = true)
    (h4 : req.parsedJws = some jws) (h5 : jws.signatures = [sig]) (h6 : sig.jwk = some k) :
    (∀ regCheck reg, env.getRegistrationByKey k = .found reg →
      (∀ kk, Event.sigVerifyOK kk ∈ (verifyPOST env req regCheck res).1 → kk = reg.key) ∧
      (∀ kk, Event.sigVerifyFail kk ∈ (verifyPOST env req regCheck res).1 → kk = reg.key) ∧
      (∀ kk, Event.goodKeyCheck kk ∉ (verifyPOST env req regCheck res).1) ∧
      (∀ p kk r, (verifyPOST env req regCheck res).2 = .ok (p, kk, r) →
        kk = reg.key ∧ r = reg)) ∧
    (env.getRegistrationByKey k = .noSuchRegistration →
      (∀ e, env.goodKey k = some e →
        (verifyPOST env req false res).2 = .error (.goodKeyPolicy e) ∧
        ∀ kk, Event.sigVerifyOK kk ∉ (verifyPOST env req false res).1 ∧
          Event.sigVerifyFail kk ∉ (verifyPOST env req false res).1) ∧
      (env.goodKey k = none →
        Event.goodKeyCheck k ∈ (verifyPOST env req false res).1 ∧
        (∀ kk, Event.sigVerifyOK kk ∈ (verifyPOST env req false res).1 → kk = k) ∧
        (∀ p kk r, (verifyPOST env req false res).2 = .ok (p, kk, r) →
          kk = k ∧ r = Registration.empty))) := by
  constructor
  · intro regCheck reg hfound
    simp only [verifyPOST, h1, h2, h3, h4, h5, h6, hfound]
    norm_num
    refine ⟨?_, ?_, ?_, ?_⟩
    · intro kk hm
      exact (verifyPOSTtail_sigOK_conds env jws sig reg.key reg _ res kk (by simp) hm).1
    · intro kk hm
      exact verifyPOSTtail_sigFail_key env jws sig reg.key reg _ res kk (by simp) hm
    · intro kk
      exact verifyPOSTtail_no_goodKey env jws sig reg.key reg _ res kk (by simp)
    · intro p kk r hok
      have h := verifyPOSTtail_ok env jws sig reg.key reg _ res p kk r hok
      exact ⟨h.2.1, h.2.2⟩
  · intro hnosuch
    constructor
    · intro e hge
      simp [verifyPOST, h1, h2, h3, h4, h5, h6, hnosuch, hge]
    · intro hgn
      simp only [verifyPOST, h1, h2, h3, h4, h5, h6, hnosuch, hgn]
      norm_num
      refine ⟨?_, ?_, ?_⟩
      · exact verifyPOSTtail_mem_left env jws sig k Registration.empty _ res _ (by simp)
      · intro kk hm
        exact (verifyPOSTtail_sigOK_conds env jws sig k Registration.empty _ res kk
          (by simp) hm).1
      · intro p kk r hok
        have h := verifyPOSTtail_ok env jws sig k Registration.empty _ res p kk r hok
        exact ⟨h.2.1, h.2.2⟩

/-- C2 witness: both lookup outcomes at concrete inputs — with a stored
registration the verification event carries the stored key `kStored` (not
the submitted `kA`) and the result carries the stored registration; with
no registration and a good submitted key, verification uses `kA` and the
sentinel empty registration is returned. -/
theorem verifyPOST_key_resolution_witness :
    (Event.sigVerifyOK kStored ∈ (verifyPOST envFound (mkReq basePayload) true "reg").1 →
      kStored = regA.key) ∧
    (Event.goodKeyCheck kA ∈ (verifyPOST env0 (mkReq basePayload) false "reg").1 ∧
      ∀ p kk r, (verifyPOST env0 (mkReq basePayload) false "reg").2 = .ok (p, kk, r) →
        kk = kA ∧ r = Registration.empty) := by
  constructor
  · intro hm
    exact ((verifyPOST_key_resolution envFound (mkReq basePayload) "reg" (mkJws basePayload)
      { jwk := some kA, nonce := "nonce1" } kA rfl rfl rfl rfl rfl rfl).1 true regA
      (by decide)).1 kStored hm
  · have h := ((verifyPOST_key_resolution env0 (mkReq basePayload) "reg" (mkJws basePayload)
      { jwk := some kA, nonce := "nonce1" } kA rfl rfl rfl rfl rfl rfl).2 (by decide)).2 (by decide)
    exact ⟨h.1, h.2.2⟩

/-- C4: once the signature has verified (a `sigVerifyOK` event occurred)
and the nonce is present and valid, a payload that parses as JSON but
whose `resource` field is empty, absent (the Go zero value is the empty
string), or different from the endpoint's expected resource makes
`verifyPOST` return a Malformed error. -/
theorem verifyPOST_resource_binding (env : Env) (req : PostRequest) (regCheck : Bool)
    (res : String) (jws : Jws) (sig : JwsSignature) (k : JsonWebKey)
    (h1 : req.hasContentLength = true) (h2 : req.hasBody = true) (h3 : req.readOk = true)
    (h4 : req.parsedJws = some jws) (h5 : jws.signatures = [sig]) (h6 : sig.jwk = some k)
    (hver : ∃ kk, Event.sigVerifyOK kk ∈ (verifyPOST env req regCheck res).1)
    (hn1 : sig.nonce.length ≠ 0) (hn2 : env.nonceValid sig.nonce = true)
    (hjson : jws.payload.jsonOk = true)
    (hres : jws.payload.resource = "" ∨ jws.payload.resource ≠ res) :
    ∃ m, (verifyPOST env req regCheck res).2 = .error (.malformedRequest m) := by
  obtain ⟨kk, hm⟩ := hver
  simp only [verifyPOST, h1, h2, h3, h4, h5, h6] at hm ⊢
  norm_num at hm ⊢
  cases hR : env.getRegistrationByKey k with
  | found reg =>
    rw [hR] at hm
    have hc := verifyPOSTtail_sigOK_conds env jws sig reg.key reg _ res kk (by simp) hm
    exact verifyPOSTtail_resource_reject env jws sig reg.key reg _ res hc.2.1 hc.2.2
      hn1 hn2 hjson hres
  | noSuchRegistration =>
    rw [hR] at hm
    cases regCheck with
    | true => simp at hm
    | false =>
      cases hG : env.goodKey k with
      | some e => rw [hG] at hm; simp at hm
      | none =>
        rw [hG] at hm
        have hc := verifyPOSTtail_sigOK_conds env jws sig k Registration.empty _ res kk
          (by simp) hm
        exact verifyPOSTtail_resource_reject env jws sig k Registration.empty _ res
          hc.2.1 hc.2.2 hn1 hn2 hjson hres
  | otherError e =>
    rw [hR] at hm
    simp at hm

/-- C4 witness: a concrete signed request whose payload says
`"resource": "bogus"` against the `reg` endpoint is rejected as
Malformed. -/
theorem verifyPOST_resource_binding_witness :
    ∃ m, (verifyPOST env0 (mkReq { basePayload with resource := "bogus" }) false "reg").2 =
      .error (.malformedRequest m) :=
  verifyPOST_resource_binding env0 (mkReq { basePayload with resource := "bogus" }) false "reg"
    (mkJws { basePayload with resource := "bogus" }) { jwk := some kA, nonce := "nonce1" } kA
    rfl rfl rfl rfl rfl rfl ⟨kA, by decide⟩ (by decide) (by decide) (by decide)
    (by right; decide)

/-- C5: a POST body that parses as a JWS with zero or with two or more
signatures makes `verifyPOST` return a SignatureValidation error with an
empty collaborator trace — in particular before any
`SA.GetRegistrationByKey` (or other backend) call. -/
theorem verifyPOST_bad_sig_count_rejected_before_backend (env : Env) (req : PostRequest)
    (regCheck : Bool) (res : String) (jws : Jws)
    (h1 : req.hasContentLength = true) (h2 : req.hasBody = true) (h3 : req.readOk = true)
    (h4 : req.parsedJws = some jws) (h5 : jws.signatures.length ≠ 1) :
    (verifyPOST env req regCheck res).1 = [] ∧
    ∃ m, (verifyPOST env req regCheck res).2 = .error (.signatureValidation m) := by
  by_cases hgt : jws.signatures.length > 1
  · simp [verifyPOST, h1, h2, h3, h4, hgt]
  · have h0 : jws.signatures.length = 0 := by omega
    have hnil : jws.signatures = [] := List.length_eq_zero.mp h0
    simp [verifyPOST, h1, h2, h3, h4, hnil]

/-- C5 witness: a concrete two-signature request is rejected with an empty
trace. -/
theorem verifyPOST_bad_sig_count_witness :
    (Wfe.verifyPOST env0 reqTwoSigs true "reg").1 = [] ∧
    ∃ m, (Wfe.verifyPOST env0 reqTwoSigs true "reg").2 = .error (.signatureValidation m) :=
  verifyPOST_bad_sig_count_rejected_before_backend env0 reqTwoSigs true "reg"
    { signatures := [{ jwk := some kA, nonce := "nonce1" }, { jwk := some kA, nonce := "nonce2" }],
      payload := basePayload }
    (by decide) (by decide) (by decide) (by decide) (by decide)

/-! ## Handler claims -/

theorem verifyPOSTtail_trace_isVerify (env : Env) (jws : Jws) (sig : JwsSignature)
    (key : JsonWebKey) (reg : Registration) (tr : List Event) (res : String)
    (htr : tr.all Event.isVerifyEvent = true) :
    ((verifyPOSTtail env jws sig key reg tr res).1.all Event.isVerifyEvent) = true := by
  rcases verifyPOSTtail_trace_shape env jws sig key reg tr res with h | h | h | h <;>
    rw [h, List.all_append, htr] <;> rfl

theorem verifyPOST_trace_isVerify (env : Env) (req : PostRequest) (rc : Bool) (res : String) :
    ((verifyPOST env req rc res).1.all Event.isVerifyEvent) = true := by
  unfold verifyPOST
  repeat' split
  all_goals
    first
      | rfl
      | (apply verifyPOSTtail_trace_isVerify; rfl)

theorem verifyPOST_trace_mem_isVerify (env : Env) (req : PostRequest) (rc : Bool)
    (res : String) (e : Event) (he : e ∈ (verifyPOST env req rc res).1) :
    e.isVerifyEvent = true := by
  have h := verifyPOST_trace_isVerify env req rc res
  rw [List.all_eq_true] at h
  simpa using h e he

/-- C6: whenever the registration-update handler forwards an update to
`RA.UpdateRegistration`, the forwarded update object carries the
authenticated account's stored key — regardless of the key submitted in
the update payload, the update cannot change the account key. -/
theorem registration_update_preserves_key (env : Env) (req : PostRequest) (path : String)
    (base upd : Registration)
    (h : Event.updateRegistrationCall base upd ∈ (registrationHandler env req path).trace) :
    upd.key = base.key := by
  simp only [registrationHandler, mkError] at h
  repeat' split at h
  all_goals
    first
      | (exact absurd (verifyPOST_trace_mem_isVerify _ _ _ _ _ h)
          (by simp [Event.isVerifyEvent]))
      | (rw [List.mem_append] at h
         rcases h with h | h
         · exact absurd (verifyPOST_trace_mem_isVerify _ _ _ _ _ h)
             (by simp [Event.isVerifyEvent])
         · simp only [List.mem_singleton, Event.updateRegistrationCall.injEq] at h
           obtain ⟨rfl, rfl⟩ := h
           rfl)

/-- C6 witness: a concrete update submitting key digest 77 is forwarded
with the stored key `regA.key` instead. -/
theorem registration_update_preserves_key_witness :
    ({ updSub with key := regA.key } : Registration).key = regA.key :=
  registration_update_preserves_key envFound (mkReq regPayload) "1" regA
    { updSub with key := regA.key } (by decide)

/-- C1: for a revocation request that authenticates, whose submitted
certificate bytes equal the stored ones and whose stored status is not
revoked, the revocation is forwarded to `RA.RevokeCertificateWithReg` iff
the requester's key digest equals the certificate's embedded public key or
the requester's account ID equals the certificate's owning account ID; in
all other cases the handler responds 403 (unauthorized) and the backend
revocation is never called. -/
theorem revoke_authorization_truth_table (env : Env) (req : PostRequest)
    (p : Payload) (k : JsonWebKey) (reg : Registration) (der : List Nat)
    (pc : ParsedCert) (cert : Certificate) (st : String)
    (hv : (verifyPOST env req false resourceRevokeCert).2 = .ok (p, k, reg))
    (hder : p.revokeDER = some der)
    (hpc : env.parseCert der = some pc)
    (hcert : env.getCertificate pc.serial = some cert)
    (hbytes : cert.der = der)
    (hst : env.getCertificateStatus pc.serial = some st)
    (hnr : st ≠ "revoked") :
    ((∃ c rid, Event.revokeCertificateWithRegCall c rid ∈ (revokeCertificate env req).trace) ↔
      (keyDigestEquals k pc.publicKeyDigest = true ∨ reg.id = cert.registrationID)) ∧
    (¬(keyDigestEquals k pc.publicKeyDigest = true ∨ reg.id = cert.registrationID) →
      (revokeCertificate env req).status = 403 ∧
      (revokeCertificate env req).problem = some .unauthorizedP) := by
  have hpc2 : env.parseCert cert.der = some pc := by rw [hbytes]; exact hpc
  have hred : revokeCertificate env req =
      (if ¬(keyDigestEquals k pc.publicKeyDigest = true ∨ reg.id = cert.registrationID) then
        mkError ((verifyPOST env req false resourceRevokeCert).1 ++
          [Event.getCertificateCall pc.serial] ++
          [Event.getCertificateStatusCall pc.serial]) 403
      else
        match env.revokeCertificateWithReg pc reg.id with
        | some e =>
          mkError ((verifyPOST env req false resourceRevokeCert).1 ++
            [Event.getCertificateCall pc.serial] ++
            [Event.getCertificateStatusCall pc.serial] ++
            [Event.revokeCertificateWithRegCall pc reg.id]) (statusCodeFromError e)
        | none =>
          { trace := (verifyPOST env req false resourceRevokeCert).1 ++
              [Event.getCertificateCall pc.serial] ++
              [Event.getCertificateStatusCall pc.serial] ++
              [Event.revokeCertificateWithRegCall pc reg.id]
            status := 200, problem := none, body := .empty }) := by
    simp only [revokeCertificate, hv, hder, hpc, hcert, hpc2, hst]
    rw [if_neg (by simp [hbytes])]
    rw [if_neg (by simp [hnr])]
  by_cases hauth : keyDigestEquals k pc.publicKeyDigest = true ∨ reg.id = cert.registrationID
  · rw [hred, if_neg (not_not_intro hauth)]
    refine ⟨⟨fun _ => hauth, fun _ => ⟨pc, reg.id, ?_⟩⟩, fun hcon => absurd hauth hcon⟩
    cases hrv : env.revokeCertificateWithReg pc reg.id <;>
      simp [hrv, mkError]
  · rw [hred, if_pos hauth]
    refine ⟨⟨?_, fun hcon => absurd hcon hauth⟩, fun _ => ⟨rfl, rfl⟩⟩
    rintro ⟨c, rid, hmem⟩
    simp only [mkError, List.mem_append, List.mem_singleton] at hmem
    rcases hmem with (hmem | hmem) | hmem
    · exact absurd (verifyPOST_trace_mem_isVerify _ _ _ _ _ hmem)
        (by simp [Event.isVerifyEvent])
    · exact Event.noConfusion hmem
    · exact Event.noConfusion hmem

/-- C1 witness: a revocation request authenticated under a key matching
neither the certificate's embedded key nor its owning account is refused
with 403 (and, per the theorem's iff, without a backend revocation
call). -/
theorem revoke_authorization_truth_table_witness :
    (revokeCertificate envRevoke (mkReq revokePayload)).status = 403 ∧
    (revokeCertificate envRevoke (mkReq revokePayload)).problem = some .unauthorizedP :=
  (revoke_authorization_truth_table envRevoke (mkReq revokePayload)
    revokePayload kA Registration.empty [1, 2, 3] pcA certA "good"
    (by decide) (by decide) (by decide) (by decide) (by decide) (by decide)
    (by decide)).2 (by decide)

theorem prepAuthorizationForDisplay_cleared (env : Env) (a : Authorization) :
    authzCleared (prepAuthorizationForDisplay env a) := by
  refine ⟨rfl, rfl, ?_⟩
  intro c hc
  simp only [prepAuthorizationForDisplay, List.mem_map] at hc
  obtain ⟨c0, _, rfl⟩ := hc
  exact ⟨rfl, rfl⟩

theorem postChallenge_display_cleared (env : Env) (req : PostRequest) (authz : Authorization)
    (idx : Nat) (tr0 : List Event) (r : HandlerResult)
    (h : postChallenge env req authz idx tr0 = .done r) :
    (∀ c, r.body = .challengeBody c → challengeCleared c) ∧
    (∀ a, r.body = .authzBody a → False) := by
  simp only [postChallenge, mkError] at h
  repeat' split at h
  all_goals
    first
      | (injection h with h
         subst h
         refine ⟨fun c hc => ?_, fun a ha => by simp at ha⟩
         first
           | (simp only [ResponseBody.challengeBody.injEq] at hc
              subst hc
              exact ⟨rfl, rfl⟩)
           | (simp at hc))
      | injection h

/-- C7: every Authorization or Challenge object a handler serializes into a
client response body has its internal fields cleared: challenge `ID` zero
and `AccountKey` absent, authorization `ID` empty and `RegistrationID`
zero — across the new-authorization, authorization-read, challenge-read
and challenge-update response paths. -/
theorem display_internal_fields_cleared :
    (∀ env req a, (newAuthorizationHandler env req).body = .authzBody a → authzCleared a) ∧
    (∀ env path r a, authorizationHandler env path = .done r → r.body = .authzBody a →
      authzCleared a) ∧
    (∀ env m s req r, challengeHandler env m s req = .done r →
      (∀ c, r.body = .challengeBody c → challengeCleared c) ∧
      (∀ a, r.body = .authzBody a → authzCleared a)) := by
  refine ⟨?_, ?_, ?_⟩
  · intro env req a ha
    simp only [newAuthorizationHandler, mkError] at ha
    repeat' split at ha
    all_goals
      first
        | (simp only [ResponseBody.authzBody.injEq] at ha
           subst ha
           exact prepAuthorizationForDisplay_cleared _ _)
        | exact absurd ha (by simp)
  · intro env path r a h hb
    simp only [authorizationHandler, mkError] at h
    repeat' split at h
    all_goals
      first
        | (injection h with h
           subst h
           first
             | (simp only [ResponseBody.authzBody.injEq] at hb
                subst hb
                exact prepAuthorizationForDisplay_cleared _ _)
             | exact absurd hb (by simp))
        | injection h
  · intro env m s req r h
    simp only [challengeHandler, mkError, getChallenge] at h
    repeat' split at h
    all_goals
      first
        | (exact ⟨(postChallenge_display_cleared _ _ _ _ _ _ h).1,
            fun a ha => ((postChallenge_display_cleared _ _ _ _ _ _ h).2 a ha).elim⟩)
        | (injection h with h
           subst h
           refine ⟨fun c hc => ?_, fun a ha => by simp at ha⟩
           first
             | (simp only [ResponseBody.challengeBody.injEq] at hc
                subst hc
                exact ⟨rfl, rfl⟩)
             | (simp at hc))
        | injection h

/-- C7 witness: a concrete new-authorization response body, built from an
RA-returned authorization with internal IDs set, has them all cleared. -/
theorem display_internal_fields_cleared_witness :
    authzCleared (prepAuthorizationForDisplay envC7 authzRaw) :=
  display_internal_fields_cleared.1 envC7 (mkReq naPayload)
    (prepAuthorizationForDisplay envC7 authzRaw) (by decide)

/-- C8 counterexample: a POST with no Content-Length header is a
LengthRequired failure, and the registration handler's response status is
411, not 400 as the claim states. -/
theorem lengthRequired_not_400_counterexample :
    (verifyPOST env0 reqNoCL true resourceRegistration).2 =
      .error (.lengthRequired "Content-Length header is required for POST.") ∧
    (registrationHandler env0 reqNoCL "1").status = 411 ∧
    ¬((registrationHandler env0 reqNoCL "1").status = 400) :=
  ⟨by decide, by decide, by decide⟩

/-- C8 (amended): every LengthRequired failure (missing Content-Length on
a POST) is tagged with the "malformed" problem type, but not always with
status 400: the handlers that take their status from
`statusCodeFromError` — registration update, new-authorization and
certificate revocation — answer 411 (Length Required), which `sendError`
does not remap, while the challenge-update handler hardcodes
`http.StatusBadRequest` (web-front-end.go:983) and answers 400. -/
theorem lengthRequired_classification :
    (∀ m, sendError (statusCodeFromError (.lengthRequired m)) = (.malformedP, 411)) ∧
    (∀ env req path, req.hasContentLength = false →
      (registrationHandler env req path).status = 411 ∧
      (registrationHandler env req path).problem = some .malformedP) ∧
    (∀ env req, req.hasContentLength = false →
      (newAuthorizationHandler env req).status = 411 ∧
      (newAuthorizationHandler env req).problem = some .malformedP) ∧
    (∀ env req, req.hasContentLength = false →
      (revokeCertificate env req).status = 411 ∧
      (revokeCertificate env req).problem = some .malformedP) ∧
    (∀ env req authz idx tr0, req.hasContentLength = false →
      postChallenge env req authz idx tr0 =
        .done { trace := tr0, status := 400, problem := some .malformedP,
                body := .problemBody }) := by
  refine ⟨fun m => rfl, ?_, ?_, ?_, ?_⟩
  · intro env req path h
    have hred : registrationHandler env req path = mkError [] 411 := by
      simp [registrationHandler, verifyPOST, statusCodeFromError, h]
    rw [hred]
    exact ⟨rfl, rfl⟩
  · intro env req h
    have hred : newAuthorizationHandler env req = mkError [] 411 := by
      simp [newAuthorizationHandler, verifyPOST, statusCodeFromError, h]
    rw [hred]
    exact ⟨rfl, rfl⟩
  · intro env req h
    have hred : revokeCertificate env req = mkError [] 411 := by
      simp [revokeCertificate, verifyPOST, statusCodeFromError, h]
    rw [hred]
    exact ⟨rfl, rfl⟩
  · intro env req authz idx tr0 h
    have hv : verifyPOST env req true resourceChallenge =
        ([], .error (.lengthRequired "Content-Length header is required for POST.")) := by
      simp [verifyPOST, h]
    simp [postChallenge, hv, mkError, sendError]

/-- C8 amended-claim witness: concrete missing-Content-Length requests —
411/malformed from the registration handler, 400/malformed from the
challenge-update handler. -/
theorem lengthRequired_classification_witness :
    ((registrationHandler env0 reqNoCL "1").status = 411 ∧
      (registrationHandler env0 reqNoCL "1").problem = some .malformedP) ∧
    postChallenge env0 reqNoCL authzNilExp 0 [] =
      .done { trace := [], status := 400, problem := some .malformedP,
              body := .problemBody } :=
  ⟨lengthRequired_classification.2.1 env0 reqNoCL "1" (by decide),
   lengthRequired_classification.2.2.2.2 env0 reqNoCL authzNilExp 0 [] (by decide)⟩

/-- C9 (code bug): on a stored authorization whose `Expires` pointer is
nil, both the challenge read handler and the authorization read handler
enter the expiry-rejection branch and dereference the nil pointer
(`*authz.Expires` in `fmt.Sprintf`) — the embedded handlers panic instead
of returning the 404 the branch intends. -/
theorem nil_expires_panics :
    challengeHandler envNilExp .GET "a/7" (mkReq basePayload) =
      .panicked [Event.getAuthorizationCall "a"] ∧
    authorizationHandler envNilExp "a" =
      .panicked [Event.getAuthorizationCall "a"] :=
  ⟨by decide, by decide⟩

/-- C10: a challenge URL whose suffix does not split into exactly two
slash-separated segments, or whose second segment does not parse as a
decimal 64-bit integer, yields a 404 with an empty collaborator trace —
no backend is called. -/
theorem challenge_bad_path_404_no_backend (env : Env) (m : Method) (suffix : String)
    (req : PostRequest)
    (h : (splitOnSlash suffix).length ≠ 2 ∨
      parseInt64 ((splitOnSlash suffix).getD 1 "") = none) :
    challengeHandler env m suffix req =
      .done { trace := [], status := 404, problem := some .malformedP, body := .problemBody } := by
  simp only [challengeHandler]
  rcases h with h | h
  · rw [if_pos h]; rfl
  · by_cases h2 : (splitOnSlash suffix).length ≠ 2
    · rw [if_pos h2]; rfl
    · rw [if_neg h2, h]; rfl

/-- C10 witness: a one-segment challenge path gets 404, empty trace. -/
theorem challenge_bad_path_404_witness :
    challengeHandler env0 .GET "abc" (mkReq basePayload) =
      .done { trace := [], status := 404, problem := some .malformedP, body := .problemBody } :=
  challenge_bad_path_404_no_backend env0 .GET "abc" (mkReq basePayload) (.inl (by decide))

end Wfe
